import Mathlib

/-!
Shallow embedding of `gather-context` (`src/main.py`).

The program walks a directory tree top-down (`os.walk`), prunes excluded
subdirectories before descending, filters candidate files by glob patterns
(`fnmatch.fnmatch`), reads their text content, enforces count and size
budgets, accumulates a collected list plus statistics, and formats the
result into a single string.

Modelling conventions:
  * A filesystem is an `Entry` tree.  A file carries `Option String`:
    `some s` means the file opens and decodes (UTF-8) to `s`; `none`
    means `open`/`read` raises `UnicodeDecodeError` or `IOError`.
  * A path is a `List String` of segments whose head is the (already
    resolved) scan root; `pathStr` renders the string form that the
    program hands to `fnmatch` and to the formatter.  `Path.resolve()`
    is the identity on this abstract representation (the model has no
    symlinks and only deals in resolved absolute paths).
  * `fnmatch.fnmatch` is embedded as a fuel-indexed glob matcher
    (`*`, `?`, `[...]` classes with `!` negation and `a-b` ranges, an
    unterminated `[` is a literal).  On POSIX `os.path.normcase` is the
    identity, so no case folding is modelled.  Fuel `|pat| + |s| + 1`
    strictly exceeds the number of steps, every step consuming at least
    one pattern or string character, so the `0` branch is unreachable.
  * Python falsiness of default arguments (`x or default`) is modelled
    per argument: `None`/`[]` for lists, `None`/`0` for the numeric
    budgets, `None`/`[]` for the relativization base.
-/

namespace GatherContext

/-- Python `str.strip()` whitespace (`Py_UNICODE_ISSPACE`): a file whose
characters all satisfy this is "empty or whitespace-only". -/
def pyIsSpace (c : Char) : Bool :=
  c == ' ' || c == '\t' || c == '\n' || c == '\r' || c == '\x0b' || c == '\x0c' ||
  c == '\x1c' || c == '\x1d' || c == '\x1e' || c == '\x1f' || c == '\x85' ||
  c == '\xa0' || c == ' ' || (decide (' ' ≤ c) && decide (c ≤ ' ')) ||
  c == ' ' || c == ' ' || c == ' ' || c == ' ' || c == '　'

/-- Does a `[...]` class body match a character: `a-b` is a range,
other characters are literals (a `-` at either end is a literal). -/
def classMatch : List Char → Char → Bool
  | [], _ => false
  | a :: '-' :: b :: rest, c =>
    (decide (a ≤ c) && decide (c ≤ b)) || classMatch rest c
  | a :: rest, c => a == c || classMatch rest c

/-- Split a character list at the first `]`, returning the content before
it and the remainder after it; `none` if there is no `]`. -/
def splitOnRBracket : List Char → Option (List Char × List Char)
  | [] => none
  | ']' :: t => some ([], t)
  | c :: t =>
    match splitOnRBracket t with
    | none => none
    | some (content, rest) => some (c :: content, rest)

/-- After the optional `!`, a leading `]` belongs to the class body
(as in `fnmatch.translate`). -/
def splitLeadRBracket : List Char → Option (List Char × List Char)
  | ']' :: t =>
    match splitOnRBracket t with
    | none => none
    | some (content, rest) => some (']' :: content, rest)
  | l => splitOnRBracket l

/-- Parse the body of a `[...]` class (the characters after `[`):
negation flag, class body, and the pattern remainder after `]`.
`none` when the class is unterminated (then `[` is a literal). -/
def splitClass (l : List Char) : Option (Bool × List Char × List Char) :=
  match l with
  | '!' :: t =>
    match splitLeadRBracket t with
    | none => none
    | some (content, rest) => some (true, content, rest)
  | _ =>
    match splitLeadRBracket l with
    | none => none
    | some (content, rest) => some (false, content, rest)

/-- Fuel-indexed glob matcher: `fnmatchFuel fuel pat s` decides whether
pattern `pat` matches the whole string `s` under `fnmatch` semantics
(`*` matches any run of characters including `/`). -/
def fnmatchFuel : Nat → List Char → List Char → Bool
  | 0, _, _ => false
  | _ + 1, [], s => s.isEmpty
  | k + 1, '*' :: ps, s =>
    fnmatchFuel k ps s ||
      (match s with
       | [] => false
       | _ :: cs => fnmatchFuel k ('*' :: ps) cs)
  | k + 1, '?' :: ps, s =>
    (match s with
     | [] => false
     | _ :: cs => fnmatchFuel k ps cs)
  | k + 1, '[' :: ps, s =>
    (match splitClass ps with
     | none =>
       match s with
       | [] => false
       | c :: cs => c == '[' && fnmatchFuel k ps cs
     | some (neg, content, rest) =>
       match s with
       | [] => false
       | c :: cs => (classMatch content c != neg) && fnmatchFuel k rest cs)
  | k + 1, pc :: ps, s =>
    (match s with
     | [] => false
     | c :: cs => pc == c && fnmatchFuel k ps cs)

/-- `fnmatch.fnmatch(name, pat)` on POSIX (no case folding). -/
def fnmatch (name pat : String) : Bool :=
  fnmatchFuel (pat.length + name.length + 1) pat.toList name.toList

/-- `is_excluded(path, exclude_patterns)` from `src/main.py`. -/
def is_excluded (path : String) (exclude_patterns : List String) : Bool :=
  exclude_patterns.any fun pat => fnmatch path pat

/-- `is_included(path, include_patterns)` from `src/main.py`. -/
def is_included (path : String) (include_patterns : List String) : Bool :=
  include_patterns.any fun pat => fnmatch path pat

/-- `DEFAULT_EXTENSIONS` from `src/main.py`. -/
def DEFAULT_EXTENSIONS : List String :=
  ["*.py", "*.js", "*.jsx", "*.ts", "*.tsx",
   "*.html", "*.css", "*.scss", "*.sass",
   "*.java", "*.c", "*.cpp", "*.h", "*.hpp",
   "*.go", "*.rs", "*.rb", "*.php", "*.swift"]

/-- `DEFAULT_EXCLUDES` from `src/main.py`. -/
def DEFAULT_EXCLUDES : List String :=
  ["**/node_modules/**", "**/venv/**", "**/.git/**",
   "**/build/**", "**/dist/**", "**/__pycache__/**",
   "**/.env", "**/env/**", "**/.vscode/**", "**/.idea/**",
   "**/vendor/**", "**/bin/**", "**/obj/**",
   "**/*.min.js", "**/*.min.css", "**/package-lock.json",
   "**/yarn.lock", "**/Pipfile.lock", "**/poetry.lock"]

/-- String form of a segment path (`str(Path(...))`): the head segment is
the resolved scan root, further segments are entry names. -/
def pathStr (p : List String) : String :=
  String.intercalate "/" p

/-- String form of the segment list left after `Path.relative_to`
(`str(Path())` of no segments is `"."`). -/
def joinRelParts (l : List String) : String :=
  if l.isEmpty then "." else String.intercalate "/" l

/-- Lines 131-135 of `src/main.py`: `file_path.relative_to(relative_to_path)`
when the base's parts are a prefix of the file's parts, otherwise the
`ValueError` branch keeps the absolute path. -/
def relativeDisplay (base p : List String) : String :=
  if base <+: p then joinRelParts (p.drop base.length) else pathStr p

/- A directory tree: files carry `some content` when they open and decode
as UTF-8, `none` when reading raises `UnicodeDecodeError`/`IOError`.
(`EntryList` is a specialised list so that the walk recursion is
structural over the mutual family.) -/
mutual
/-- A node of the scanned directory tree. -/
inductive Entry where
  | file (name : String) (data : Option String)
  | dir (name : String) (children : EntryList)
/-- A sequence of sibling directory entries, in OS report order. -/
inductive EntryList where
  | nil
  | cons (e : Entry) (rest : EntryList)
end

/-- Build an `EntryList` from an ordinary list (directory entries in the
order the OS reports them). -/
def entryList : List Entry → EntryList
  | [] => EntryList.nil
  | e :: es => EntryList.cons e (entryList es)

/-- The immediate files of one directory, paired with their paths --
the `for file in files` loop input at one `os.walk` step. -/
def filesOf (root : List String) : EntryList → List (List String × Option String)
  | EntryList.nil => []
  | EntryList.cons (Entry.file n d) rest => (root ++ [n], d) :: filesOf root rest
  | EntryList.cons (Entry.dir _ _) rest => filesOf root rest

/-- The candidate files produced by descending from `root` into its
non-pruned subdirectories: `dirs[:] = [d for d in dirs if not
is_excluded(Path(root) / d, excludes)]` followed by the recursive walk.
Within each directory `os.walk` yields that directory's own files before
any subdirectory's. -/
def subWalk (ex : List String) (root : List String) : EntryList → List (List String × Option String)
  | EntryList.nil => []
  | EntryList.cons (Entry.file _ _) rest => subWalk ex root rest
  | EntryList.cons (Entry.dir n es) rest =>
    (if is_excluded (pathStr (root ++ [n])) ex then []
     else filesOf (root ++ [n]) es ++ subWalk ex (root ++ [n]) es)
      ++ subWalk ex root rest

/-- All candidate files the pruned `os.walk` loop feeds to the per-file
body, in walk order. -/
def walkFiles (ex : List String) (root : List String) (entries : EntryList) :
    List (List String × Option String) :=
  filesOf root entries ++ subWalk ex root entries

/-- The `stats` dictionary of `gather_context` (lines 84-92). -/
structure Stats where
  total_files : Nat
  included_files : Nat
  excluded_files : Nat
  empty_files : Nat
  total_size_bytes : Nat
  skipped_size_limit : Nat
  skipped_file_limit : Nat
deriving Repr, DecidableEq

/-- The zero-valued statistics the scan starts from. -/
def initStats : Stats :=
  { total_files := 0, included_files := 0, excluded_files := 0, empty_files := 0,
    total_size_bytes := 0, skipped_size_limit := 0, skipped_file_limit := 0 }

/-- The mutable scan state: the `collected` list of
(displayed path, content) pairs and the statistics. -/
structure ScanState where
  collected : List (String × String)
  stats : Stats
deriving Repr, DecidableEq

/-- `n >= bound` where `bound` may be `float('inf')` (`none`):
`included_files >= max_files` on line 110. -/
def geOpt (n : Nat) : Option Nat → Bool
  | none => false
  | some m => decide (m ≤ n)

/-- `n > bound` where `bound` may be `float('inf')` (`none`):
`total_size_bytes + file_size > max_size_bytes` on line 127. -/
def gtOpt (n : Nat) : Option Nat → Bool
  | none => false
  | some m => decide (m < n)

/-- The per-file body of the walk loop (lines 100-145 of `src/main.py`):
pattern filtering, count budget, read/decode, empty skip, size budget,
and collection.  `p` is the candidate's path, `d` its read outcome. -/
def processFile (exts exc : List String) (maxF maxSB : Option Nat) (rel : List String)
    (s : ScanState) (p : List String) (d : Option String) : ScanState :=
  if is_excluded (pathStr p) exc || !(is_included (pathStr p) exts) then
    { s with stats := { s.stats with excluded_files := s.stats.excluded_files + 1 } }
  else
    -- line 107 increments total_files before any further check; the
    -- increment is inlined into each branch below
    if geOpt s.stats.included_files maxF then
      { s with stats :=
          { s.stats with
            total_files := s.stats.total_files + 1
            skipped_file_limit := s.stats.skipped_file_limit + 1 } }
    else
      match d with
      | none =>
        { s with stats :=
            { s.stats with
              total_files := s.stats.total_files + 1
              excluded_files := s.stats.excluded_files + 1 } }
      | some content =>
        if content.toList.all pyIsSpace then
          { s with stats :=
              { s.stats with
                total_files := s.stats.total_files + 1
                empty_files := s.stats.empty_files + 1 } }
        else
          if gtOpt (s.stats.total_size_bytes + content.utf8ByteSize) maxSB then
            { s with stats :=
                { s.stats with
                  total_files := s.stats.total_files + 1
                  skipped_size_limit := s.stats.skipped_size_limit + 1 } }
          else
            { collected := s.collected ++ [(relativeDisplay rel p, content)],
              stats :=
                { s.stats with
                  total_files := s.stats.total_files + 1
                  included_files := s.stats.included_files + 1
                  total_size_bytes := s.stats.total_size_bytes + content.utf8ByteSize } }

/-- `extensions = extensions or DEFAULT_EXTENSIONS` (line 70): `None` and
`[]` are both falsy. -/
def effExtensions (extensions : List String) : List String :=
  if extensions.isEmpty then DEFAULT_EXTENSIONS else extensions

/-- `excludes = excludes or DEFAULT_EXCLUDES` (line 71). -/
def effExcludes (excludes : List String) : List String :=
  if excludes.isEmpty then DEFAULT_EXCLUDES else excludes

/-- `max_files = max_files or float('inf')` (line 73): `None` and `0` are
falsy and give an unbounded count budget. -/
def effMaxFiles : Option Nat → Option Nat
  | some (k + 1) => some (k + 1)
  | _ => none

/-- `max_size = max_size or float('inf')` then `max_size_bytes = max_size *
1024` (lines 72, 81): `None` and `0` are falsy and give an unbounded size
budget. -/
def effMaxSizeBytes : Option Nat → Option Nat
  | some (k + 1) => some ((k + 1) * 1024)
  | _ => none

/-- `relative_to = relative_to or directory` (line 74), then resolved
(lines 77-78): `None` and an empty path are falsy and default to the scan
directory. -/
def effRelativeTo (directory : String) : Option (List String) → List String
  | some (b :: bs) => b :: bs
  | _ => [directory]

/-- The walk-loop body as a fold step over (path, read outcome) pairs. -/
def stepFn (exts exc : List String) (maxF maxSB : Option Nat) (rel : List String) :
    ScanState → (List String × Option String) → ScanState :=
  fun s c => processFile exts exc maxF maxSB rel s c.1 c.2

/-- The scan state after the whole walk loop of `gather_context`
(lines 83-145): defaults applied, candidates walked in order, the
per-file body folded over them starting from empty state. -/
def scanStateOf (fs : EntryList) (directory : String)
    (extensions excludes : List String) (maxSize maxFiles : Option Nat)
    (relativeTo : Option (List String)) : ScanState :=
  (walkFiles (effExcludes excludes) [directory] fs).foldl
    (stepFn (effExtensions extensions) (effExcludes excludes)
      (effMaxFiles maxFiles) (effMaxSizeBytes maxSize)
      (effRelativeTo directory relativeTo))
    { collected := [], stats := initStats }

/-- `format_file_content(path, content)` from `src/main.py`. -/
def format_file_content (path content : String) : String :=
  "\n\n--- " ++ path ++ " ---\n\n" ++ content

/-- The formatting tail of `gather_context` (lines 148-160): a header plus
the per-file blocks when anything was collected, otherwise the
no-files sentence. -/
def render (directory : String) (st : ScanState) : String :=
  if st.collected.isEmpty then
    "No code files found in " ++ directory
  else
    "Code context gathered from " ++ directory ++ "\n" ++
      "Total files: " ++ toString st.stats.included_files ++
      String.join (st.collected.map fun pc => format_file_content pc.1 pc.2)

/-- `gather_context(...)` returning `(formatted_content, stats)`.
`fs` is the tree under the resolved `directory`; list/numeric/base
arguments are optional exactly as in the Python signature. -/
def gather_context (fs : EntryList) (directory : String)
    (extensions excludes : List String) (maxSize maxFiles : Option Nat)
    (relativeTo : Option (List String)) : String × Stats :=
  let st := scanStateOf fs directory extensions excludes maxSize maxFiles relativeTo
  (render directory st, st.stats)

/-! ### Concrete fixtures used for instantiations -/

/-- A tree holding a single readable one-byte Python file. -/
def fsSingle : EntryList := entryList [Entry.file "a.py" (some "x")]

/-- Two eligible files in walk order. -/
def fsTwo : EntryList :=
  entryList [Entry.file "a.py" (some "x"), Entry.file "b.py" (some "y")]

/-- A tree with one subdirectory that survives pruning and one that the
pattern `*/skip` prunes. -/
def fsNested : EntryList :=
  entryList
    [Entry.dir "src" (entryList [Entry.file "a.py" (some "print(1)")]),
     Entry.dir "skip" (entryList [Entry.file "b.py" (some "y")])]

/-- A tree whose candidates are all skipped: one whitespace-only file and
one unreadable file. -/
def fsAllSkipped : EntryList :=
  entryList [Entry.file "w.py" (some " \n"), Entry.file "bad.py" none]

/-- The scan state at the start of the walk. -/
def emptyState : ScanState := { collected := [], stats := initStats }

/-- A mid-scan state that already holds one included file. -/
def stateOne : ScanState :=
  { collected := [("a.py", "x")],
    stats := { total_files := 1, included_files := 1, excluded_files := 0,
               empty_files := 0, total_size_bytes := 1, skipped_size_limit := 0,
               skipped_file_limit := 0 } }

/-- A mid-scan state whose running size 1020 is close to a 1024-byte
budget. -/
def nearFullState : ScanState :=
  { collected := [],
    stats := { total_files := 3, included_files := 1, excluded_files := 1,
               empty_files := 0, total_size_bytes := 1020, skipped_size_limit := 0,
               skipped_file_limit := 0 } }

/-! ### Branch equations for the per-file body -/

/-- Line 103-105: a candidate that is pattern-excluded, or not matched by
any include pattern, only bumps `excluded_files`. -/
theorem processFile_filtered (exts exc : List String) (maxF maxSB : Option Nat)
    (rel : List String) (s : ScanState) (p : List String) (d : Option String)
    (h : (is_excluded (pathStr p) exc || !(is_included (pathStr p) exts)) = true) :
    processFile exts exc maxF maxSB rel s p d =
      { s with stats := { s.stats with excluded_files := s.stats.excluded_files + 1 } } := by
  simp [processFile, h]

/-- Lines 110-112: at the count limit, an eligible candidate bumps
`total_files` and `skipped_file_limit` and nothing else; its `d` is
irrelevant (it is never read). -/
theorem processFile_at_limit (exts exc : List String) (maxF maxSB : Option Nat)
    (rel : List String) (s : ScanState) (p : List String) (d : Option String)
    (hexc : is_excluded (pathStr p) exc = false)
    (hinc : is_included (pathStr p) exts = true)
    (hlim : geOpt s.stats.included_files maxF = true) :
    processFile exts exc maxF maxSB rel s p d =
      { s with stats :=
          { s.stats with
            total_files := s.stats.total_files + 1
            skipped_file_limit := s.stats.skipped_file_limit + 1 } } := by
  simp [processFile, hexc, hinc, hlim]

/-- Lines 142-145: a failing read (`d = none`) bumps `total_files` and
`excluded_files`. -/
theorem processFile_read_error (exts exc : List String) (maxF maxSB : Option Nat)
    (rel : List String) (s : ScanState) (p : List String)
    (hexc : is_excluded (pathStr p) exc = false)
    (hinc : is_included (pathStr p) exts = true)
    (hlim : geOpt s.stats.included_files maxF = false) :
    processFile exts exc maxF maxSB rel s p none =
      { s with stats :=
          { s.stats with
            total_files := s.stats.total_files + 1
            excluded_files := s.stats.excluded_files + 1 } } := by
  simp [processFile, hexc, hinc, hlim]

/-- Lines 120-122: empty or whitespace-only content bumps `total_files`
and `empty_files`. -/
theorem processFile_empty (exts exc : List String) (maxF maxSB : Option Nat)
    (rel : List String) (s : ScanState) (p : List String) (content : String)
    (hexc : is_excluded (pathStr p) exc = false)
    (hinc : is_included (pathStr p) exts = true)
    (hlim : geOpt s.stats.included_files maxF = false)
    (hempty : content.toList.all pyIsSpace = true) :
    processFile exts exc maxF maxSB rel s p (some content) =
      { s with stats :=
          { s.stats with
            total_files := s.stats.total_files + 1
            empty_files := s.stats.empty_files + 1 } } := by
  simp only [processFile, hexc, hinc, hlim, hempty]
  simp

/-- Lines 127-129: a file whose size would overrun the byte budget bumps
`total_files` and `skipped_size_limit`. -/
theorem processFile_size_skip (exts exc : List String) (maxF maxSB : Option Nat)
    (rel : List String) (s : ScanState) (p : List String) (content : String)
    (hexc : is_excluded (pathStr p) exc = false)
    (hinc : is_included (pathStr p) exts = true)
    (hlim : geOpt s.stats.included_files maxF = false)
    (hne : content.toList.all pyIsSpace = false)
    (hover : gtOpt (s.stats.total_size_bytes + content.utf8ByteSize) maxSB = true) :
    processFile exts exc maxF maxSB rel s p (some content) =
      { s with stats :=
          { s.stats with
            total_files := s.stats.total_files + 1
            skipped_size_limit := s.stats.skipped_size_limit + 1 } } := by
  simp only [processFile, hexc, hinc, hlim, hne, hover]
  simp

/-- Lines 131-140: an accepted file is appended to `collected` under its
display path and bumps `total_files`, `included_files` and
`total_size_bytes`. -/
theorem processFile_collect (exts exc : List String) (maxF maxSB : Option Nat)
    (rel : List String) (s : ScanState) (p : List String) (content : String)
    (hexc : is_excluded (pathStr p) exc = false)
    (hinc : is_included (pathStr p) exts = true)
    (hlim : geOpt s.stats.included_files maxF = false)
    (hne : content.toList.all pyIsSpace = false)
    (hover : gtOpt (s.stats.total_size_bytes + content.utf8ByteSize) maxSB = false) :
    processFile exts exc maxF maxSB rel s p (some content) =
      { collected := s.collected ++ [(relativeDisplay rel p, content)],
        stats :=
          { s.stats with
            total_files := s.stats.total_files + 1
            included_files := s.stats.included_files + 1
            total_size_bytes := s.stats.total_size_bytes + content.utf8ByteSize } } := by
  simp only [processFile, hexc, hinc, hlim, hne, hover]
  simp

/-! ### Walker soundness: pruning really prevents descent -/

/-- Two prefixes of the same list that have the same length are equal. -/
theorem eq_prefixes_of_length {α : Type} {q r p : List α}
    (h1 : q <+: p) (h2 : r <+: p) (h : q.length = r.length) : q = r :=
  List.IsPrefix.eq_of_length (List.prefix_of_prefix_length_le h1 h2 (le_of_eq h)) h

/-- Every candidate yielded by `filesOf` lies directly in `root`. -/
theorem filesOf_shape : ∀ (root : List String) (es : EntryList)
    (p : List String) (d : Option String),
    (p, d) ∈ filesOf root es → ∃ n, p = root ++ [n]
  | _, EntryList.nil, _, _, h => by simp [filesOf] at h
  | root, EntryList.cons (Entry.file n dd) rest, p, d, h => by
    rw [filesOf] at h
    rcases List.mem_cons.mp h with h1 | h2
    · exact ⟨n, congrArg Prod.fst h1⟩
    · exact filesOf_shape root rest p d h2
  | root, EntryList.cons (Entry.dir _ _) rest, p, d, h => by
    rw [filesOf] at h
    exact filesOf_shape root rest p d h

/-- Every candidate yielded by descending below `root` extends `root` by at
least two segments, and none of its strict ancestors below `root` matches
the exclude patterns: the walker tested each of them before descending. -/
theorem subWalk_sound : ∀ (ex root : List String) (es : EntryList)
    (p : List String) (d : Option String),
    (p, d) ∈ subWalk ex root es →
    root.length + 2 ≤ p.length ∧ root <+: p ∧
      ∀ q : List String, root.length < q.length → q.length < p.length → q <+: p →
        is_excluded (pathStr q) ex = false
  | _, _, EntryList.nil, _, _, h => by simp [subWalk] at h
  | ex, root, EntryList.cons (Entry.file _ _) rest, p, d, h => by
    rw [subWalk] at h
    exact subWalk_sound ex root rest p d h
  | ex, root, EntryList.cons (Entry.dir nn cs) rest, p, d, h => by
    rw [subWalk] at h
    rcases List.mem_append.mp h with h1 | h2
    · by_cases hex : is_excluded (pathStr (root ++ [nn])) ex = true
      · rw [if_pos hex] at h1
        simp at h1
      · rw [if_neg hex] at h1
        simp only [Bool.not_eq_true] at hex
        rcases List.mem_append.mp h1 with hf | hs
        · obtain ⟨m, rfl⟩ := filesOf_shape (root ++ [nn]) cs p d hf
          refine ⟨by simp, ⟨[nn] ++ [m], by simp⟩, ?_⟩
          intro q hq1 hq2 hqp
          have hlen : q.length = (root ++ [nn]).length := by
            simp only [List.length_append, List.length_cons, List.length_nil] at hq2 ⊢
            omega
          have hq : q = root ++ [nn] :=
            eq_prefixes_of_length hqp ⟨[m], rfl⟩ hlen
          rw [hq]
          exact hex
        · obtain ⟨hlen, hpre, hanc⟩ := subWalk_sound ex (root ++ [nn]) cs p d hs
          refine ⟨?_, (List.prefix_append root [nn]).trans hpre, ?_⟩
          · simp only [List.length_append, List.length_cons, List.length_nil] at hlen
            omega
          · intro q hq1 hq2 hqp
            by_cases hql : q.length ≤ root.length + 1
            · have hlen' : q.length = (root ++ [nn]).length := by simp; omega
              have hq : q = root ++ [nn] := eq_prefixes_of_length hqp hpre hlen'
              rw [hq]
              exact hex
            · exact hanc q (by simp; omega) hq2 hqp
    · exact subWalk_sound ex root rest p d h2

/-- Every candidate the walker yields from `root` strictly extends `root`,
and no strict ancestor of it below `root` matches the exclude patterns. -/
theorem walkFiles_sound (ex root : List String) (es : EntryList)
    (p : List String) (d : Option String)
    (h : (p, d) ∈ walkFiles ex root es) :
    root <+: p ∧ root.length < p.length ∧
      ∀ q : List String, root.length < q.length → q.length < p.length → q <+: p →
        is_excluded (pathStr q) ex = false := by
  rcases List.mem_append.mp h with h1 | h2
  · obtain ⟨n, rfl⟩ := filesOf_shape root es p d h1
    refine ⟨List.prefix_append root [n], by simp, ?_⟩
    intro q hq1 hq2 _
    exfalso
    simp only [List.length_append, List.length_cons, List.length_nil] at hq2
    omega
  · obtain ⟨hlen, hpre, hanc⟩ := subWalk_sound ex root es p d h2
    exact ⟨hpre, by omega, hanc⟩

/-! ### Provenance of collected entries and statistics invariants -/

/-- Anything in the collected list after one step was already there, or is
the processed candidate itself: then it was readable, pattern-eligible,
non-whitespace, and is displayed under `relativeDisplay`. -/
theorem processFile_collected_mem (exts exc : List String) (maxF maxSB : Option Nat)
    (rel : List String) (s : ScanState) (p : List String) (d : Option String)
    (rp c : String)
    (h : (rp, c) ∈ (processFile exts exc maxF maxSB rel s p d).collected) :
    (rp, c) ∈ s.collected ∨
      (d = some c ∧ rp = relativeDisplay rel p ∧
       is_excluded (pathStr p) exc = false ∧ is_included (pathStr p) exts = true ∧
       c.toList.all pyIsSpace = false) := by
  unfold processFile at h
  split at h
  · exact Or.inl h
  · rename_i hcond
    split at h
    · exact Or.inl h
    · rename_i hlim
      split at h
      · exact Or.inl h
      · rename_i content
        split at h
        · exact Or.inl h
        · rename_i hws
          split at h
          · exact Or.inl h
          · rcases List.mem_append.mp h with h1 | h2
            · exact Or.inl h1
            · right
              simp only [List.mem_singleton, Prod.mk.injEq] at h2
              obtain ⟨hrp, hc⟩ := h2
              simp only [Bool.or_eq_true, Bool.not_eq_true', not_or,
                Bool.not_eq_true, Bool.not_eq_false] at hcond
              subst hc
              exact ⟨rfl, hrp, hcond.1, hcond.2, by
                simpa using hws⟩

/-- Provenance over the whole fold: every collected pair stems from some
candidate in the list. -/
theorem foldl_collected_mem (exts exc : List String) (maxF maxSB : Option Nat)
    (rel : List String) :
    ∀ (cands : List (List String × Option String)) (s : ScanState) (rp c : String),
    (rp, c) ∈ (cands.foldl (stepFn exts exc maxF maxSB rel) s).collected →
    (rp, c) ∈ s.collected ∨
      ∃ p : List String, (p, some c) ∈ cands ∧ rp = relativeDisplay rel p ∧
        is_excluded (pathStr p) exc = false ∧ is_included (pathStr p) exts = true ∧
        c.toList.all pyIsSpace = false
  | [], _, _, _, h => Or.inl h
  | (p0, d0) :: rest, s, rp, c, h => by
    rw [List.foldl_cons] at h
    rcases foldl_collected_mem exts exc maxF maxSB rel rest
        (stepFn exts exc maxF maxSB rel s (p0, d0)) rp c h with h1 | h2
    · rcases processFile_collected_mem exts exc maxF maxSB rel s p0 d0 rp c h1 with ha | hb
      · exact Or.inl ha
      · right
        exact ⟨p0, by rw [hb.1] at *; exact List.mem_cons_self _ _, hb.2.1, hb.2.2⟩
    · right
      obtain ⟨p, hp, hrest⟩ := h2
      exact ⟨p, List.mem_cons_of_mem _ hp, hrest⟩

/-- One step never pushes `included_files` above a finite count budget. -/
theorem processFile_included_le (exts exc : List String) (f : Nat) (maxSB : Option Nat)
    (rel : List String) (s : ScanState) (p : List String) (d : Option String)
    (h : s.stats.included_files ≤ f) :
    (processFile exts exc (some f) maxSB rel s p d).stats.included_files ≤ f := by
  unfold processFile
  split
  · exact h
  · split
    · exact h
    · rename_i hlim
      simp only [geOpt, decide_eq_true_eq] at hlim
      split
      · exact h
      · split
        · exact h
        · split
          · exact h
          · simp
            omega

/-- One step never pushes `total_size_bytes` above a finite byte budget. -/
theorem processFile_size_le (exts exc : List String) (maxF : Option Nat) (B : Nat)
    (rel : List String) (s : ScanState) (p : List String) (d : Option String)
    (h : s.stats.total_size_bytes ≤ B) :
    (processFile exts exc maxF (some B) rel s p d).stats.total_size_bytes ≤ B := by
  unfold processFile
  split
  · exact h
  · split
    · exact h
    · split
      · exact h
      · split
        · exact h
        · split
          · exact h
          · rename_i hover
            simp only [gtOpt, decide_eq_true_eq] at hover
            simp
            omega

/-- Fold form of `processFile_included_le`. -/
theorem foldl_included_le (exts exc : List String) (f : Nat) (maxSB : Option Nat)
    (rel : List String) :
    ∀ (cands : List (List String × Option String)) (s : ScanState),
    s.stats.included_files ≤ f →
    (cands.foldl (stepFn exts exc (some f) maxSB rel) s).stats.included_files ≤ f
  | [], _, h => h
  | c0 :: rest, s, h => by
    rw [List.foldl_cons]
    exact foldl_included_le exts exc f maxSB rel rest _
      (processFile_included_le exts exc f maxSB rel s c0.1 c0.2 h)

/-- Fold form of `processFile_size_le`. -/
theorem foldl_size_le (exts exc : List String) (maxF : Option Nat) (B : Nat)
    (rel : List String) :
    ∀ (cands : List (List String × Option String)) (s : ScanState),
    s.stats.total_size_bytes ≤ B →
    (cands.foldl (stepFn exts exc maxF (some B) rel) s).stats.total_size_bytes ≤ B
  | [], _, h => h
  | c0 :: rest, s, h => by
    rw [List.foldl_cons]
    exact foldl_size_le exts exc maxF B rel rest _
      (processFile_size_le exts exc maxF B rel s c0.1 c0.2 h)

/-- A positive `max_files` argument survives the falsy-default step. -/
theorem effMaxFiles_pos (f : Nat) (hf : 1 ≤ f) : effMaxFiles (some f) = some f := by
  cases f with
  | zero => omega
  | succ k => rfl

/-- A positive `max_size` argument survives the falsy-default step and is
converted to bytes. -/
theorem effMaxSizeBytes_pos (sKB : Nat) (hs : 1 ≤ sKB) :
    effMaxSizeBytes (some sKB) = some (sKB * 1024) := by
  cases sKB with
  | zero => omega
  | succ k => rfl

/-! ### Claims -/

/-- C1: for every directory tree and configuration, a file lying under a
directory that matches the (effective) exclude patterns never appears in
the collected set, even if the file itself matches an include pattern:
every collected entry stems from a walked candidate none of whose strict
ancestor directories below the root matches the exclude patterns, because
the walker prunes matching directories before descending into them. -/
theorem c1_excluded_dir_never_collected
    (fs : EntryList) (directory : String) (extensions excludes : List String)
    (maxSize maxFiles : Option Nat) (relativeTo : Option (List String)) (rp c : String)
    (hmem : (rp, c) ∈
      (scanStateOf fs directory extensions excludes maxSize maxFiles relativeTo).collected) :
    ∃ p : List String,
      (p, some c) ∈ walkFiles (effExcludes excludes) [directory] fs ∧
      rp = relativeDisplay (effRelativeTo directory relativeTo) p ∧
      ∀ q : List String, 2 ≤ q.length → q.length < p.length → q <+: p →
        is_excluded (pathStr q) (effExcludes excludes) = false := by
  unfold scanStateOf at hmem
  rcases foldl_collected_mem _ _ _ _ _ _ _ rp c hmem with h1 | h2
  · simp [emptyState] at h1
  · obtain ⟨p, hpmem, hrp, -, -, -⟩ := h2
    refine ⟨p, hpmem, hrp, ?_⟩
    intro q hq2 hqlt hqp
    exact (walkFiles_sound _ _ _ p (some c) hpmem).2.2 q hq2 hqlt hqp

/-- C1 witness: in a concrete tree with a pruned `skip` directory, the
collected entry `src/a.py` satisfies the provenance property. -/
theorem c1_witness :
    ("src/a.py", "print(1)") ∈
      (scanStateOf fsNested "/r" ["*.py"] ["*/skip"] none none none).collected ∧
    ∃ p : List String,
      (p, some "print(1)") ∈ walkFiles (effExcludes ["*/skip"]) ["/r"] fsNested ∧
      "src/a.py" = relativeDisplay (effRelativeTo "/r" none) p ∧
      ∀ q : List String, 2 ≤ q.length → q.length < p.length → q <+: p →
        is_excluded (pathStr q) (effExcludes ["*/skip"]) = false :=
  ⟨by decide,
   c1_excluded_dir_never_collected fsNested "/r" ["*.py"] ["*/skip"] none none none
     "src/a.py" "print(1)" (by decide)⟩

/-- C2 counterexample: with `max_files = 0` the claim fails, because `0` is
falsy in Python and line 73 replaces it by `float('inf')`: one eligible
file is collected, so `included_files = 1 > 0`. -/
theorem c2_counterexample :
    ¬ ((gather_context fsSingle "/r" ["*.py"] ["*.zzz"] none (some 0) none).2.included_files
        ≤ 0) := by
  decide

/-- C2 (amended): for every scan with a positive max-file budget `f`,
`included_files` never exceeds `f` -- it holds after the whole scan and is
preserved by every step -- and once `included_files >= f` every
otherwise-eligible candidate only increments `total_files` (it is counted
as seen) and `skipped_file_limit`, independently of the file's content,
which is never read; the collected list is unchanged. -/
theorem c2_max_files_budget (f : Nat) (hf : 1 ≤ f) :
    (∀ (fs : EntryList) (directory : String) (extensions excludes : List String)
       (maxSize : Option Nat) (relativeTo : Option (List String)),
       (scanStateOf fs directory extensions excludes maxSize (some f)
           relativeTo).stats.included_files ≤ f) ∧
    (∀ (exts exc : List String) (maxSB : Option Nat) (rel : List String)
       (s : ScanState) (p : List String) (d : Option String),
       s.stats.included_files ≤ f →
       (processFile exts exc (some f) maxSB rel s p d).stats.included_files ≤ f) ∧
    (∀ (exts exc : List String) (maxSB : Option Nat) (rel : List String)
       (s : ScanState) (p : List String) (d : Option String),
       f ≤ s.stats.included_files →
       is_excluded (pathStr p) exc = false →
       is_included (pathStr p) exts = true →
       processFile exts exc (some f) maxSB rel s p d =
         { s with stats :=
             { s.stats with
               total_files := s.stats.total_files + 1
               skipped_file_limit := s.stats.skipped_file_limit + 1 } }) := by
  refine ⟨?_, ?_, ?_⟩
  · intro fs directory extensions excludes maxSize relativeTo
    unfold scanStateOf
    rw [effMaxFiles_pos f hf]
    exact foldl_included_le _ _ f _ _ _ emptyState (by simp [emptyState, initStats])
  · intro exts exc maxSB rel s p d h
    exact processFile_included_le exts exc f maxSB rel s p d h
  · intro exts exc maxSB rel s p d h hexc hinc
    exact processFile_at_limit exts exc (some f) maxSB rel s p d hexc hinc
      (by simp [geOpt, h])

/-- C2 witness: with budget 1 and two eligible files, the final count is at
most 1, and a step at a state that already holds one included file only
bumps `total_files` and `skipped_file_limit`. -/
theorem c2_witness :
    (scanStateOf fsTwo "/r" ["*.py"] ["*.zzz"] none (some 1) none).stats.included_files ≤ 1 ∧
    processFile ["*.py"] ["*.zzz"] (some 1) none ["/r"] stateOne ["/r", "b.py"] (some "y") =
      { collected := [("a.py", "x")],
        stats := { total_files := 2, included_files := 1, excluded_files := 0,
                   empty_files := 0, total_size_bytes := 1, skipped_size_limit := 0,
                   skipped_file_limit := 1 } } :=
  ⟨(c2_max_files_budget 1 (by decide)).1 fsTwo "/r" ["*.py"] ["*.zzz"] none none,
   (c2_max_files_budget 1 (by decide)).2.2 ["*.py"] ["*.zzz"] none ["/r"] stateOne
     ["/r", "b.py"] (some "y") (by decide) (by decide) (by decide)⟩

/-- C3 counterexample: with `max_size = 0` the claim fails, because `0` is
falsy in Python and line 72 replaces it by `float('inf')`: a one-byte file
is collected and `total_size_bytes = 1 > 0*1024`. -/
theorem c3_counterexample :
    ¬ ((gather_context fsSingle "/r" ["*.py"] ["*.zzz"] (some 0) none none).2.total_size_bytes
        ≤ 0 * 1024) := by
  decide

/-- C3 (amended): for every scan with a positive size budget `s` KB,
`total_size_bytes <= s*1024` holds after the scan and is preserved by every
step; a file whose UTF-8 size would push the running total over the budget
only increments `total_files` and `skipped_size_limit`; and the fold over
the candidate list continues past any candidate, so later smaller files
may still be collected. -/
theorem c3_size_budget (sKB : Nat) (hs : 1 ≤ sKB) :
    (∀ (fs : EntryList) (directory : String) (extensions excludes : List String)
       (maxFiles : Option Nat) (relativeTo : Option (List String)),
       (scanStateOf fs directory extensions excludes (some sKB) maxFiles
           relativeTo).stats.total_size_bytes ≤ sKB * 1024) ∧
    (∀ (exts exc : List String) (maxF : Option Nat) (rel : List String)
       (s : ScanState) (p : List String) (d : Option String),
       s.stats.total_size_bytes ≤ sKB * 1024 →
       (processFile exts exc maxF (some (sKB * 1024)) rel s p d).stats.total_size_bytes
         ≤ sKB * 1024) ∧
    (∀ (exts exc : List String) (maxF : Option Nat) (rel : List String)
       (s : ScanState) (p : List String) (content : String),
       is_excluded (pathStr p) exc = false →
       is_included (pathStr p) exts = true →
       geOpt s.stats.included_files maxF = false →
       content.toList.all pyIsSpace = false →
       gtOpt (s.stats.total_size_bytes + content.utf8ByteSize) (some (sKB * 1024)) = true →
       processFile exts exc maxF (some (sKB * 1024)) rel s p (some content) =
         { s with stats :=
             { s.stats with
               total_files := s.stats.total_files + 1
               skipped_size_limit := s.stats.skipped_size_limit + 1 } }) ∧
    (∀ (exts exc : List String) (maxF : Option Nat) (rel : List String)
       (l1 l2 : List (List String × Option String)) (c0 : List String × Option String)
       (s0 : ScanState),
       (l1 ++ c0 :: l2).foldl (stepFn exts exc maxF (some (sKB * 1024)) rel) s0 =
         l2.foldl (stepFn exts exc maxF (some (sKB * 1024)) rel)
           (stepFn exts exc maxF (some (sKB * 1024)) rel
             (l1.foldl (stepFn exts exc maxF (some (sKB * 1024)) rel) s0) c0)) := by
  refine ⟨?_, ?_, ?_, ?_⟩
  · intro fs directory extensions excludes maxFiles relativeTo
    unfold scanStateOf
    rw [effMaxSizeBytes_pos sKB hs]
    exact foldl_size_le _ _ _ (sKB * 1024) _ _ emptyState (by simp [emptyState, initStats])
  · intro exts exc maxF rel s p d h
    exact processFile_size_le exts exc maxF (sKB * 1024) rel s p d h
  · intro exts exc maxF rel s p content hexc hinc hlim hws hover
    exact processFile_size_skip exts exc maxF (some (sKB * 1024)) rel s p content
      hexc hinc hlim hws hover
  · intro exts exc maxF rel l1 l2 c0 s0
    simp [List.foldl_append]

/-- C3 witness: with a 1 KB budget the final total stays at most 1024
bytes, and at a state holding 1020 bytes a six-byte file is size-skipped. -/
theorem c3_witness :
    (scanStateOf fsSingle "/r" ["*.py"] ["*.zzz"] (some 1) none none).stats.total_size_bytes
      ≤ 1 * 1024 ∧
    processFile ["*.py"] ["*.zzz"] none (some (1 * 1024)) ["/r"] nearFullState
        ["/r", "c.py"] (some "hello!") =
      { collected := [],
        stats := { total_files := 4, included_files := 1, excluded_files := 1,
                   empty_files := 0, total_size_bytes := 1020, skipped_size_limit := 1,
                   skipped_file_limit := 0 } } :=
  ⟨(c3_size_budget 1 (by decide)).1 fsSingle "/r" ["*.py"] ["*.zzz"] none none,
   (c3_size_budget 1 (by decide)).2.2.1 ["*.py"] ["*.zzz"] none ["/r"] nearFullState
     ["/r", "c.py"] "hello!" (by decide) (by decide) (by decide) (by decide) (by decide)⟩

/-- C4 counterexample: running with `max_size = 0` on a tree with one
non-empty eligible file does NOT skip it: the file is collected,
`skipped_size_limit` stays 0 and the collected set is non-empty, because
line 72 turns the falsy `0` into `float('inf')`. -/
theorem c4_counterexample :
    (scanStateOf fsSingle "/r" ["*.py"] ["*.zzz"] (some 0) none none).collected
        = [("a.py", "x")] ∧
    (gather_context fsSingle "/r" ["*.py"] ["*.zzz"] (some 0) none none).2.skipped_size_limit
        = 0 := by
  decide

/-- C4 (amended): `max_size = 0` is falsy, so the scan behaves exactly as
if no size budget had been given: the size budget is unbounded and a
non-empty eligible file is collected rather than skipped. -/
theorem c4_zero_max_size_unbounded
    (fs : EntryList) (directory : String) (extensions excludes : List String)
    (maxFiles : Option Nat) (relativeTo : Option (List String)) :
    gather_context fs directory extensions excludes (some 0) maxFiles relativeTo =
      gather_context fs directory extensions excludes none maxFiles relativeTo := rfl

/-- C5: a candidate that passed the pattern filters (and, having been
read at all, the count-budget check) whose decoded content is empty or
all-whitespace increments only `empty_files` besides the seen-counter
`total_files` -- neither `included_files` nor `excluded_files` -- and
leaves the collected list unchanged; moreover no collected entry of any
scan ever has empty or all-whitespace content. -/
theorem c5_empty_whitespace_skipped :
    (∀ (exts exc : List String) (maxF maxSB : Option Nat) (rel : List String)
       (s : ScanState) (p : List String) (content : String),
       is_excluded (pathStr p) exc = false →
       is_included (pathStr p) exts = true →
       geOpt s.stats.included_files maxF = false →
       content.toList.all pyIsSpace = true →
       processFile exts exc maxF maxSB rel s p (some content) =
         { s with stats :=
             { s.stats with
               total_files := s.stats.total_files + 1
               empty_files := s.stats.empty_files + 1 } }) ∧
    (∀ (fs : EntryList) (directory : String) (extensions excludes : List String)
       (maxSize maxFiles : Option Nat) (relativeTo : Option (List String)) (rp c : String),
       (rp, c) ∈
         (scanStateOf fs directory extensions excludes maxSize maxFiles relativeTo).collected →
       c.toList.all pyIsSpace = false) := by
  constructor
  · intro exts exc maxF maxSB rel s p content hexc hinc hlim hws
    exact processFile_empty exts exc maxF maxSB rel s p content hexc hinc hlim hws
  · intro fs directory extensions excludes maxSize maxFiles relativeTo rp c hmem
    unfold scanStateOf at hmem
    rcases foldl_collected_mem _ _ _ _ _ _ _ rp c hmem with h1 | h2
    · simp [emptyState] at h1
    · exact h2.choose_spec.2.2.2.2

/-- C5 witness: a whitespace-only file bumps only `total_files` and
`empty_files`, and the concrete collected entry `("a.py", "x")` is not
whitespace-only. -/
theorem c5_witness :
    processFile ["*.py"] ["*.zzz"] none none ["/r"] emptyState ["/r", "w.py"] (some " \n") =
      { collected := [],
        stats := { total_files := 1, included_files := 0, excluded_files := 0,
                   empty_files := 1, total_size_bytes := 0, skipped_size_limit := 0,
                   skipped_file_limit := 0 } } ∧
    ("x".toList.all pyIsSpace) = false :=
  ⟨c5_empty_whitespace_skipped.1 ["*.py"] ["*.zzz"] none none ["/r"] emptyState
     ["/r", "w.py"] " \n" (by decide) (by decide) (by decide) (by decide),
   c5_empty_whitespace_skipped.2 fsSingle "/r" ["*.py"] ["*.zzz"] none none none
     "a.py" "x" (by decide)⟩

/-- C6: when reading or decoding a candidate that passed the filters and
the count budget fails (`d = none`), the step increments `total_files` and
`excluded_files`, leaves the collected list unchanged, and the fold simply
proceeds with the remaining candidates -- a single unreadable file never
aborts the scan. -/
theorem c6_read_failure_absorbed :
    (∀ (exts exc : List String) (maxF maxSB : Option Nat) (rel : List String)
       (s : ScanState) (p : List String),
       is_excluded (pathStr p) exc = false →
       is_included (pathStr p) exts = true →
       geOpt s.stats.included_files maxF = false →
       processFile exts exc maxF maxSB rel s p none =
         { s with stats :=
             { s.stats with
               total_files := s.stats.total_files + 1
               excluded_files := s.stats.excluded_files + 1 } }) ∧
    (∀ (exts exc : List String) (maxF maxSB : Option Nat) (rel : List String)
       (l1 l2 : List (List String × Option String)) (p : List String) (s0 : ScanState),
       (l1 ++ (p, none) :: l2).foldl (stepFn exts exc maxF maxSB rel) s0 =
         l2.foldl (stepFn exts exc maxF maxSB rel)
           (processFile exts exc maxF maxSB rel
             (l1.foldl (stepFn exts exc maxF maxSB rel) s0) p none)) := by
  constructor
  · intro exts exc maxF maxSB rel s p hexc hinc hlim
    exact processFile_read_error exts exc maxF maxSB rel s p hexc hinc hlim
  · intro exts exc maxF maxSB rel l1 l2 p s0
    simp [List.foldl_append, stepFn]

/-- C6 witness: an unreadable eligible file at the initial state bumps
`total_files` and `excluded_files`, and a concrete scan containing it
continues and still collects the later file. -/
theorem c6_witness :
    processFile ["*.py"] ["*.zzz"] none none ["/r"] emptyState ["/r", "bad.py"] none =
      { collected := [],
        stats := { total_files := 1, included_files := 0, excluded_files := 1,
                   empty_files := 0, total_size_bytes := 0, skipped_size_limit := 0,
                   skipped_file_limit := 0 } } ∧
    ([(["/r", "bad.py"], (none : Option String)), (["/r", "a.py"], some "x")].foldl
        (stepFn ["*.py"] ["*.zzz"] none none ["/r"]) emptyState =
      [(["/r", "a.py"], some "x")].foldl (stepFn ["*.py"] ["*.zzz"] none none ["/r"])
        (processFile ["*.py"] ["*.zzz"] none none ["/r"]
          ([].foldl (stepFn ["*.py"] ["*.zzz"] none none ["/r"]) emptyState)
          ["/r", "bad.py"] none)) :=
  ⟨c6_read_failure_absorbed.1 ["*.py"] ["*.zzz"] none none ["/r"] emptyState
     ["/r", "bad.py"] (by decide) (by decide) (by decide),
   c6_read_failure_absorbed.2 ["*.py"] ["*.zzz"] none none ["/r"] []
     [(["/r", "a.py"], some "x")] ["/r", "bad.py"] emptyState⟩

/-- C7: the output for a non-empty collected sequence is the header naming
the resolved root and the final included-file count followed, per
collected file in collection order, by its separator block and raw
content; for an empty collected sequence it is exactly the no-files
sentence. -/
theorem c7_formatter_output
    (fs : EntryList) (directory : String) (extensions excludes : List String)
    (maxSize maxFiles : Option Nat) (relativeTo : Option (List String)) :
    ((scanStateOf fs directory extensions excludes maxSize maxFiles relativeTo).collected
        = [] →
      (gather_context fs directory extensions excludes maxSize maxFiles relativeTo).1 =
        "No code files found in " ++ directory) ∧
    ((scanStateOf fs directory extensions excludes maxSize maxFiles relativeTo).collected
        ≠ [] →
      (gather_context fs directory extensions excludes maxSize maxFiles relativeTo).1 =
        "Code context gathered from " ++ directory ++ "\n" ++ "Total files: " ++
          toString (scanStateOf fs directory extensions excludes maxSize maxFiles
              relativeTo).stats.included_files ++
          String.join
            ((scanStateOf fs directory extensions excludes maxSize maxFiles
                relativeTo).collected.map
              fun pc => format_file_content pc.1 pc.2)) := by
  constructor
  · intro h
    simp [gather_context, render, h]
  · intro h
    have h' : (scanStateOf fs directory extensions excludes maxSize maxFiles
        relativeTo).collected.isEmpty = false := by
      simpa [List.isEmpty_iff] using h
    simp [gather_context, render, h', String.append_assoc]

/-- C7 witness: the two formatter branches at concrete scans. -/
theorem c7_witness :
    (gather_context fsAllSkipped "/r" ["*.py"] ["*.zzz"] none none none).1 =
      "No code files found in /r" ∧
    (gather_context fsSingle "/r" ["*.py"] ["*.zzz"] none none none).1 =
      "Code context gathered from /r\nTotal files: 1\n\n--- a.py ---\n\nx" :=
  ⟨Eq.trans
     ((c7_formatter_output fsAllSkipped "/r" ["*.py"] ["*.zzz"] none none none).1
       (by decide))
     (by decide),
   Eq.trans
     ((c7_formatter_output fsSingle "/r" ["*.py"] ["*.zzz"] none none none).2
       (by decide))
     (by decide)⟩

/-- C8: every collected entry stems from a walked candidate whose full
decoded text is the stored content; its recorded path is the path relative
to the resolved relativization base when the candidate lies under that
base, and the absolute path otherwise. -/
theorem c8_recorded_paths
    (fs : EntryList) (directory : String) (extensions excludes : List String)
    (maxSize maxFiles : Option Nat) (relativeTo : Option (List String)) (rp c : String)
    (hmem : (rp, c) ∈
      (scanStateOf fs directory extensions excludes maxSize maxFiles relativeTo).collected) :
    ∃ p : List String,
      (p, some c) ∈ walkFiles (effExcludes excludes) [directory] fs ∧
      ((effRelativeTo directory relativeTo <+: p ∧
        rp = joinRelParts (p.drop (effRelativeTo directory relativeTo).length)) ∨
       (¬ (effRelativeTo directory relativeTo <+: p) ∧ rp = pathStr p)) := by
  unfold scanStateOf at hmem
  rcases foldl_collected_mem _ _ _ _ _ _ _ rp c hmem with h1 | h2
  · simp [emptyState] at h1
  · obtain ⟨p, hpmem, hrp, -, -, -⟩ := h2
    refine ⟨p, hpmem, ?_⟩
    by_cases hb : effRelativeTo directory relativeTo <+: p
    · exact Or.inl ⟨hb, by rw [hrp, relativeDisplay, if_pos hb]⟩
    · exact Or.inr ⟨hb, by rw [hrp, relativeDisplay, if_neg hb]⟩

/-- C8 witness: with a relativization base that is not an ancestor of the
scanned file, the absolute path is recorded. -/
theorem c8_witness :
    ("/r/a.py", "x") ∈
      (scanStateOf fsSingle "/r" ["*.py"] ["*.zzz"] none none (some ["/other"])).collected ∧
    ∃ p : List String,
      (p, some "x") ∈ walkFiles (effExcludes ["*.zzz"]) ["/r"] fsSingle ∧
      ((effRelativeTo "/r" (some ["/other"]) <+: p ∧
        "/r/a.py" = joinRelParts (p.drop (effRelativeTo "/r" (some ["/other"])).length)) ∨
       (¬ (effRelativeTo "/r" (some ["/other"]) <+: p) ∧ "/r/a.py" = pathStr p)) :=
  ⟨by decide,
   c8_recorded_paths fsSingle "/r" ["*.py"] ["*.zzz"] none none (some ["/other"])
     "/r/a.py" "x" (by decide)⟩

/-- C9: a candidate that passes the pattern filters increments
`total_files` whatever its read outcome and whatever the count budget; a
filter-passing candidate whose read fails is counted in both `total_files`
and `excluded_files`; a pattern-excluded candidate is counted in
`excluded_files` only and never in `total_files`. -/
theorem c9_total_files_accounting :
    (∀ (exts exc : List String) (maxF maxSB : Option Nat) (rel : List String)
       (s : ScanState) (p : List String) (d : Option String),
       is_excluded (pathStr p) exc = false →
       is_included (pathStr p) exts = true →
       (processFile exts exc maxF maxSB rel s p d).stats.total_files =
         s.stats.total_files + 1) ∧
    (∀ (exts exc : List String) (maxF maxSB : Option Nat) (rel : List String)
       (s : ScanState) (p : List String),
       is_excluded (pathStr p) exc = false →
       is_included (pathStr p) exts = true →
       geOpt s.stats.included_files maxF = false →
       (processFile exts exc maxF maxSB rel s p none).stats.total_files =
           s.stats.total_files + 1 ∧
         (processFile exts exc maxF maxSB rel s p none).stats.excluded_files =
           s.stats.excluded_files + 1) ∧
    (∀ (exts exc : List String) (maxF maxSB : Option Nat) (rel : List String)
       (s : ScanState) (p : List String) (d : Option String),
       (is_excluded (pathStr p) exc || !(is_included (pathStr p) exts)) = true →
       (processFile exts exc maxF maxSB rel s p d).stats.total_files =
           s.stats.total_files ∧
         (processFile exts exc maxF maxSB rel s p d).stats.excluded_files =
           s.stats.excluded_files + 1) := by
  refine ⟨?_, ?_, ?_⟩
  · intro exts exc maxF maxSB rel s p d hexc hinc
    unfold processFile
    rw [if_neg (by simp [hexc, hinc])]
    split
    · simp
    · split
      · simp
      · split
        · simp
        · split
          · simp
          · simp
  · intro exts exc maxF maxSB rel s p hexc hinc hlim
    rw [processFile_read_error exts exc maxF maxSB rel s p hexc hinc hlim]
    exact ⟨rfl, rfl⟩
  · intro exts exc maxF maxSB rel s p d hfilt
    rw [processFile_filtered exts exc maxF maxSB rel s p d hfilt]
    exact ⟨rfl, rfl⟩

/-- C9 witness: the three accounting facts at concrete inputs: an
unreadable eligible file, and a pattern-excluded file. -/
theorem c9_witness :
    (processFile ["*.py"] ["*.zzz"] none none ["/r"] emptyState ["/r", "bad.py"]
        none).stats.total_files = emptyState.stats.total_files + 1 ∧
    ((processFile ["*.py"] ["*.zzz"] none none ["/r"] emptyState ["/r", "bad.py"]
         none).stats.total_files = emptyState.stats.total_files + 1 ∧
      (processFile ["*.py"] ["*.zzz"] none none ["/r"] emptyState ["/r", "bad.py"]
         none).stats.excluded_files = emptyState.stats.excluded_files + 1) ∧
    ((processFile ["*.py"] ["*.zzz"] none none ["/r"] emptyState ["/r", "x.md"]
         (some "hi")).stats.total_files = emptyState.stats.total_files ∧
      (processFile ["*.py"] ["*.zzz"] none none ["/r"] emptyState ["/r", "x.md"]
         (some "hi")).stats.excluded_files = emptyState.stats.excluded_files + 1) :=
  ⟨c9_total_files_accounting.1 ["*.py"] ["*.zzz"] none none ["/r"] emptyState
     ["/r", "bad.py"] none (by decide) (by decide),
   c9_total_files_accounting.2.1 ["*.py"] ["*.zzz"] none none ["/r"] emptyState
     ["/r", "bad.py"] (by decide) (by decide) (by decide),
   c9_total_files_accounting.2.2 ["*.py"] ["*.zzz"] none none ["/r"] emptyState
     ["/r", "x.md"] (some "hi") (by decide)⟩

/-- C10: whenever the collected sequence is empty at the end of a scan --
whatever mix of pattern exclusions, empty files, budget skips or read
failures caused it -- the returned content is the no-files sentence for
the resolved root. -/
theorem c10_empty_collected_message
    (fs : EntryList) (directory : String) (extensions excludes : List String)
    (maxSize maxFiles : Option Nat) (relativeTo : Option (List String))
    (h : (scanStateOf fs directory extensions excludes maxSize maxFiles relativeTo).collected
        = []) :
    (gather_context fs directory extensions excludes maxSize maxFiles relativeTo).1 =
      "No code files found in " ++ directory := by
  simp [gather_context, render, h]

/-- C10 witness: a scan that saw candidates (a whitespace-only file and an
unreadable file) but collected nothing returns the sentence. -/
theorem c10_witness :
    (gather_context fsAllSkipped "/s" ["*.py"] ["*.zzz"] none none none).1 =
      "No code files found in /s" :=
  Eq.trans
    (c10_empty_collected_message fsAllSkipped "/s" ["*.py"] ["*.zzz"] none none none
      (by decide))
    (by decide)

end GatherContext
